import Mathlib

/-
Verification of the token acquisition and exchange protocol of the
copilot-llm repository (src/get_copilot_token.py and
src/get_enterprise_token.py).

The scripts manipulate decoded JSON documents (Python dicts produced by
json.loads).  We embed JSON values as an inductive type and JSON objects as
association lists, and translate the response-classification logic of the
two scripts directly.  Python truthiness of a JSON value (used by the
source in tests such as result.get("error")) is modelled by
JsonValue.truthy.
-/

namespace CopilotTokenFetcher

/-- A decoded JSON value, as produced by json.loads. -/
inductive JsonValue where
  | str (s : String)
  | num (n : Int)
  | bool (b : Bool)
  | null
  | arr (elems : List JsonValue)
  | obj (fields : List (String × JsonValue))

/-- A decoded JSON object (a Python dict with string keys). -/
abbrev JsonObj := List (String × JsonValue)

/-- Field lookup in a JSON object: dict.get(key) / dict[key]. -/
def jGet : JsonObj → String → Option JsonValue
  | [], _ => none
  | (k, v) :: rest, key => if k == key then some v else jGet rest key

/-- Membership test: Python "key in dict". -/
def jHas (o : JsonObj) (key : String) : Bool :=
  (jGet o key).isSome

/-- Python truthiness of a decoded JSON value: empty string, zero, False,
None, empty list and empty dict are falsy, everything else truthy. -/
def JsonValue.truthy : JsonValue → Bool
  | JsonValue.str s => !(s == "")
  | JsonValue.num n => !(n == 0)
  | JsonValue.bool b => b
  | JsonValue.null => false
  | JsonValue.arr elems => !elems.isEmpty
  | JsonValue.obj fields => !fields.isEmpty

/-- Truthiness of dict.get(key): a missing key yields None, which is falsy.
This models the source test result.get("error"). -/
def jTruthy (o : JsonObj) (key : String) : Bool :=
  match jGet o key with
  | some v => v.truthy
  | none => false

/-- The source comparison result.get("error") == "authorization_pending":
true exactly when the field is present and is that string (a non-string
JSON value never equals a Python string). -/
def isAuthorizationPending : Option JsonValue → Bool
  | some (JsonValue.str s) => s == "authorization_pending"
  | _ => false

/-- The message of the fatal polling branch of the source,
result.get("error_description", result["error"]): the error_description
value when that key is present, otherwise the error value. -/
def jErrorDescription (r : JsonObj) : JsonValue :=
  (jGet r "error_description").getD ((jGet r "error").getD JsonValue.null)

/-- Outcome of the polling loop of main (src/get_copilot_token.py lines
118-137), observed at the point where the loop has finished. -/
inductive FlowResult where
  | success (v : JsonValue)
  | authError (description : JsonValue)
  | timeout
  | exhausted

/-- The polling loop of main (src/get_copilot_token.py lines 118-132),
over the sequence of decoded poll responses the token endpoint will give.
Time is idealized: the clock advances by interval at each time.sleep and
the network calls take no time, so the loop-condition check of iteration
k happens at elapsed time el + k * interval and the poll request of that
iteration is issued at el + (k+1) * interval.  The function returns the
loop outcome together with the elapsed times at which poll requests were
issued.  FlowResult.exhausted reports that the given response sequence
ended while the loop was still running (no real run does this: the server
always answers); FlowResult.timeout is the loop condition failing, which
main reports as a timeout when no token was obtained. -/
def pollLoop (expiresIn interval elapsed : Nat) : List JsonObj → FlowResult × List Nat
  | [] =>
    if elapsed < expiresIn then (FlowResult.exhausted, []) else (FlowResult.timeout, [])
  | r :: rest =>
    if elapsed < expiresIn then
      match jGet r "access_token" with
      | some v => (FlowResult.success v, [elapsed + interval])
      | none =>
        if isAuthorizationPending (jGet r "error") then
          let next := pollLoop expiresIn interval (elapsed + interval) rest
          (next.1, (elapsed + interval) :: next.2)
        else if jTruthy r "error" then
          (FlowResult.authError (jErrorDescription r), [elapsed + interval])
        else
          let next := pollLoop expiresIn interval (elapsed + interval) rest
          (next.1, (elapsed + interval) :: next.2)
    else (FlowResult.timeout, [])

/-- The possible shapes of one HTTP exchange as seen by make_request
(src/get_copilot_token.py lines 27-44): the connection may fail before a
body is read, or the body read is empty, fails to decode as JSON, or
decodes to a JSON object. -/
inductive Body where
  | disconnected
  | empty
  | malformed
  | valid (o : JsonObj)

/-- A Python exception escaping make_request: a connection-level error
from the http client, or a json.loads decode error. -/
inductive RequestFailure where
  | connectionError
  | jsonDecodeError

/-- The response handling of make_request (src/get_copilot_token.py lines
39-44): a connection failure propagates as an exception, the body is
decoded with json.loads when data is non-empty and is the empty dict
otherwise, so an empty body becomes
the empty object and a malformed body raises a decode exception. -/
def make_request_decode : Body → Except RequestFailure JsonObj
  | Body.disconnected => Except.error RequestFailure.connectionError
  | Body.empty => Except.ok []
  | Body.malformed => Except.error RequestFailure.jsonDecodeError
  | Body.valid o => Except.ok o

/-- Outcome of the polling loop when the transport layer is visible:
crashed is an exception escaping make_request, which is uncaught by the
loop and kills the whole script. -/
inductive FlowResultB where
  | success (v : JsonValue)
  | authError (description : JsonValue)
  | timeout
  | exhausted
  | crashed (f : RequestFailure)

/-- The polling loop of main again (src/get_copilot_token.py lines
118-132), this time over the raw transport outcomes of the poll requests,
with the decode step of make_request made explicit.  An exception from
make_request is uncaught and terminates the whole script (crashed). -/
def pollLoopBodies (expiresIn interval elapsed : Nat) : List Body → FlowResultB × List Nat
  | [] =>
    if elapsed < expiresIn then (FlowResultB.exhausted, []) else (FlowResultB.timeout, [])
  | b :: rest =>
    if elapsed < expiresIn then
      match make_request_decode b with
      | Except.error f => (FlowResultB.crashed f, [elapsed + interval])
      | Except.ok r =>
        match jGet r "access_token" with
        | some v => (FlowResultB.success v, [elapsed + interval])
        | none =>
          if isAuthorizationPending (jGet r "error") then
            let next := pollLoopBodies expiresIn interval (elapsed + interval) rest
            (next.1, (elapsed + interval) :: next.2)
          else if jTruthy r "error" then
            (FlowResultB.authError (jErrorDescription r), [elapsed + interval])
          else
            let next := pollLoopBodies expiresIn interval (elapsed + interval) rest
            (next.1, (elapsed + interval) :: next.2)
    else (FlowResultB.timeout, [])

/-- start_device_flow (src/get_copilot_token.py lines 46-61): given the
decoded device-code response, sys.exit(1) (modelled as Except.error
carrying the response, the AuthServerError of the spec) when the response
contains an error field, and otherwise the response itself is returned as
the DeviceAuthorization record. -/
def start_device_flow (resp : JsonObj) : Except JsonObj JsonObj :=
  if jHas resp "error" then Except.error resp else Except.ok resp

/-- dict.get(key, default) restricted to integer JSON values, as main
uses it for interval and expires_in (src/get_copilot_token.py lines
112-113); negative values are clamped to 0, where the Python loop
condition is likewise immediately false. -/
def jGetNat (o : JsonObj) (key : String) (dflt : Nat) : Nat :=
  match jGet o key with
  | some (JsonValue.num n) => n.toNat
  | _ => dflt

/-- Terminal outcome of the device-flow part of main
(src/get_copilot_token.py lines 100-139). -/
inductive MainOutcome where
  | authServerError (raw : JsonObj)
  | gotToken (v : JsonValue)
  | authorizationError (description : JsonValue)
  | timeoutError
  | undetermined

/-- The device-flow part of main (src/get_copilot_token.py lines
100-139): start_device_flow on the device-code response, then the polling
loop with the interval and expires_in fields of the device data (defaults
5 and 900), then the final check if not github_token, under which even a
break with a falsy access_token value is reported as a timeout.  Returns
the outcome and the elapsed times of the poll requests issued. -/
def mainFlow (startResp : JsonObj) (polls : List JsonObj) : MainOutcome × List Nat :=
  match start_device_flow startResp with
  | Except.error e => (MainOutcome.authServerError e, [])
  | Except.ok d =>
    let interval := jGetNat d "interval" 5
    let expiresIn := jGetNat d "expires_in" 900
    let res := pollLoop expiresIn interval 0 polls
    (match res.1 with
     | FlowResult.success v =>
       if v.truthy then MainOutcome.gotToken v else MainOutcome.timeoutError
     | FlowResult.authError descr => MainOutcome.authorizationError descr
     | FlowResult.timeout => MainOutcome.timeoutError
     | FlowResult.exhausted => MainOutcome.undetermined,
     res.2)

/-- The secondary (Copilot) token of the spec: the token value together
with its expiry, as extracted by main (src/get_copilot_token.py lines
145-147). -/
structure SecondaryToken where
  token : JsonValue
  expiresAt : JsonValue

/-- Outcome of classifying the exchange-server response. -/
inductive ExchangeResult where
  | ok (st : SecondaryToken)
  | exchangeError (raw : JsonObj)

/-- The classification of the exchange response in main
(src/get_copilot_token.py lines 145-147 and 198-199, and identically
src/get_enterprise_token.py lines 98-100 and 135-136): when the response
has a token field, the secondary token is that value with
expires_at defaulted to 0; otherwise the failure branch holds the raw
response. -/
def classifyExchange (resp : JsonObj) : ExchangeResult :=
  match jGet resp "token" with
  | some t => ExchangeResult.ok ⟨t, (jGet resp "expires_at").getD (JsonValue.num 0)⟩
  | none => ExchangeResult.exchangeError resp

/-- The persisted JSON form of the secondary token,
json.dump with fields token and expiresAt (src/get_copilot_token.py line
191, src/get_enterprise_token.py line 127), at the level of the decoded
document. -/
def serializeSecondaryToken (st : SecondaryToken) : JsonObj :=
  [("token", st.token), ("expiresAt", st.expiresAt)]

/-- Modelled from the spec: the reader of the persisted
copilot-token.json document (the embedding proxy application) is not part
of the two scripts under src, so parsing the persisted form is modelled
from the spec, which says the persisted state is a JSON document with the
token and expiresAt fields of the SecondaryToken; the parse reads those
two fields back. -/
def parseSecondaryToken (o : JsonObj) : Option SecondaryToken :=
  match jGet o "token", jGet o "expiresAt" with
  | some t, some e => some ⟨t, e⟩
  | _, _ => none

/-- An outbound HTTPS request as both scripts build one: host, path,
method, header list, and the JSON document serialized into the body, if
any. -/
structure HttpRequest where
  host : String
  path : String
  method : String
  headers : List (String × String)
  body : Option JsonObj

/-- The default headers of make_request (src/get_copilot_token.py lines
29-33). -/
def defaultHeaders : List (String × String) :=
  [("Content-Type", "application/json"), ("Accept", "application/json")]

/-- The request-building half of make_request (src/get_copilot_token.py
lines 27-38): default headers when none are given, and the body is
json.dumps(data) if data else None, so both a missing and an empty data
dict give a bodiless request. -/
def make_request (host path : String) (data : Option JsonObj)
    (headers : Option (List (String × String))) (method : String) : HttpRequest :=
  ⟨host, path, method, headers.getD defaultHeaders,
    match data with
    | some o => if o.isEmpty then none else some o
    | none => none⟩

namespace CopilotScript

/-- get_copilot_token of src/get_copilot_token.py (lines 77-92): the
request it issues, built through make_request. -/
def get_copilot_token (github_token : String) : HttpRequest :=
  make_request "api.github.com" "/copilot_internal/v2/token" none
    (some [("Authorization", "token " ++ github_token),
           ("Accept", "application/json"),
           ("Content-Type", "application/json"),
           ("User-Agent", "GitHubCopilotChat/0.26.7"),
           ("Editor-Version", "vscode/1.85.1")])
    "POST"

/-- How get_copilot_token of src/get_copilot_token.py turns the raw
response into its result: the decode step of make_request. -/
def get_copilot_token_response (b : Body) : Except RequestFailure JsonObj :=
  make_request_decode b

end CopilotScript

namespace EnterpriseScript

/-- get_copilot_token of src/get_enterprise_token.py (lines 37-54): the
request it issues, built inline without make_request. -/
def get_copilot_token (github_token : String) : HttpRequest :=
  ⟨"api.github.com", "/copilot_internal/v2/token", "POST",
    [("Authorization", "token " ++ github_token),
     ("Accept", "application/json"),
     ("Content-Type", "application/json"),
     ("User-Agent", "GitHubCopilotChat/0.26.7"),
     ("Editor-Version", "vscode/1.85.1")],
    none⟩

/-- How get_copilot_token of src/get_enterprise_token.py turns the raw
response into its result (lines 50-54): json.loads on a non-empty body,
the empty dict on an empty body, with exceptions propagating. -/
def get_copilot_token_response (b : Body) : Except RequestFailure JsonObj :=
  match b with
  | Body.disconnected => Except.error RequestFailure.connectionError
  | Body.empty => Except.ok []
  | Body.malformed => Except.error RequestFailure.jsonDecodeError
  | Body.valid o => Except.ok o

end EnterpriseScript

/-- C1 (counterexample): the claim says every poll response lacking
access_token whose error field is anything other than
authorization_pending terminates the loop immediately with
AuthorizationError carrying the provider error description.  But the
response whose error field is the empty string (falsy in Python) lacks
access_token and its error differs from authorization_pending, yet the
loop silently retries: a second poll request is issued (at elapsed time
10) and the loop succeeds on it instead of failing. -/
theorem c1_counterexample :
    jGet [("error", JsonValue.str "")] "access_token" = none
    ∧ jGet [("error", JsonValue.str "")] "error" = some (JsonValue.str "")
    ∧ JsonValue.str "" ≠ JsonValue.str "authorization_pending"
    ∧ pollLoop 900 5 0 [[("error", JsonValue.str "")], [("access_token", JsonValue.str "tok")]]
      = (FlowResult.success (JsonValue.str "tok"), [5, 10]) := by
  refine ⟨rfl, rfl, by simp, rfl⟩

/-- C1 (amended): during polling, with the deadline check still passing,
a response lacking access_token whose error field equals
authorization_pending makes the loop continue with exactly one more
sleep-then-poll attempt (the loop then behaves as from the advanced
clock, still subject to the deadline check); a response lacking
access_token whose error field is truthy and different from
authorization_pending terminates the loop immediately with
AuthorizationError carrying the provider error description; and a
response whose error field is falsy or absent is retried exactly like
authorization_pending rather than treated as fatal. -/
theorem c1_amended (e i el : Nat) (r : JsonObj) (rest : List JsonObj)
    (hel : el < e) (hat : jGet r "access_token" = none) :
    (isAuthorizationPending (jGet r "error") = true →
      pollLoop e i el (r :: rest)
        = ((pollLoop e i (el + i) rest).1, (el + i) :: (pollLoop e i (el + i) rest).2))
    ∧ (isAuthorizationPending (jGet r "error") = false → jTruthy r "error" = true →
      pollLoop e i el (r :: rest) = (FlowResult.authError (jErrorDescription r), [el + i]))
    ∧ (jTruthy r "error" = false →
      pollLoop e i el (r :: rest)
        = ((pollLoop e i (el + i) rest).1, (el + i) :: (pollLoop e i (el + i) rest).2)) := by
  refine ⟨fun hp => ?_, fun hp htr => ?_, fun htr => ?_⟩
  · simp [pollLoop, hel, hat, hp]
  · simp [pollLoop, hel, hat, hp, htr]
  · by_cases hp : isAuthorizationPending (jGet r "error") <;>
      simp [pollLoop, hel, hat, hp, htr]

/-- C1 (witness): the three branches of the amended claim at concrete
inputs: an authorization_pending response retries, an expired_token
response fails fatally with its error value as description, and an
empty-string error response retries. -/
theorem c1_witness :
    pollLoop 900 5 0 [[("error", JsonValue.str "authorization_pending")]]
      = ((pollLoop 900 5 5 ([] : List JsonObj)).1, 5 :: (pollLoop 900 5 5 ([] : List JsonObj)).2)
    ∧ pollLoop 900 5 0 [[("error", JsonValue.str "expired_token")]]
      = (FlowResult.authError (jErrorDescription [("error", JsonValue.str "expired_token")]), [5])
    ∧ pollLoop 900 5 0 [[("error", JsonValue.str "")]]
      = ((pollLoop 900 5 5 ([] : List JsonObj)).1, 5 :: (pollLoop 900 5 5 ([] : List JsonObj)).2) :=
  ⟨(c1_amended 900 5 0 [("error", JsonValue.str "authorization_pending")] []
      (by decide) rfl).1 rfl,
   (c1_amended 900 5 0 [("error", JsonValue.str "expired_token")] []
      (by decide) rfl).2.1 rfl rfl,
   (c1_amended 900 5 0 [("error", JsonValue.str "")] []
      (by decide) rfl).2.2 rfl⟩

/-- C2 (counterexample): with expires_in 6, interval 5 and every poll
response authorization_pending, the loop condition is checked at elapsed
5 (still below 6), the loop sleeps, and a poll request is issued at
elapsed 10, which is at least expires_in, refuting the claim that the
loop never issues a poll request once elapsed is at least expires_in. -/
theorem c2_counterexample :
    pollLoop 6 5 0
      [[("error", JsonValue.str "authorization_pending")],
       [("error", JsonValue.str "authorization_pending")]]
      = (FlowResult.timeout, [5, 10])
    ∧ 6 ≤ 10 := ⟨rfl, by decide⟩

/-- C2 (amended): the deadline is checked only at the top of each cycle,
before the sleep.  If elapsed is already at least expires_in the loop
body never runs: no poll request is issued and the outcome is the
timeout failure.  Each cycle that does run issues its poll request
interval seconds after its check, so every poll request is issued at a
time strictly below expires_in + interval: the poll may overshoot the
deadline by up to the interval (and by the in-flight network time). -/
theorem c2_amended (e i el : Nat) (rs : List JsonObj) :
    (e ≤ el → pollLoop e i el rs = (FlowResult.timeout, []))
    ∧ (∀ t ∈ (pollLoop e i el rs).2, t < e + i) := by
  constructor
  · intro h
    cases rs <;> simp [pollLoop, Nat.not_lt.mpr h]
  · induction rs generalizing el with
    | nil =>
      intro t ht
      by_cases hel : el < e <;> simp [pollLoop, hel] at ht
    | cons r rest ih =>
      intro t ht
      by_cases hel : el < e
      · simp only [pollLoop, if_pos hel] at ht
        rcases hat : jGet r "access_token" with _ | v
        · rw [hat] at ht
          by_cases hp : isAuthorizationPending (jGet r "error")
          · rw [if_pos hp] at ht
            simp at ht
            rcases ht with h1 | h2
            · omega
            · exact ih (el + i) t h2
          · rw [if_neg hp] at ht
            by_cases htr : jTruthy r "error"
            · rw [if_pos htr] at ht
              simp at ht
              omega
            · rw [if_neg htr] at ht
              simp at ht
              rcases ht with h1 | h2
              · omega
              · exact ih (el + i) t h2
        · rw [hat] at ht
          simp at ht
          omega
      · simp only [pollLoop, if_neg hel] at ht
        simp at ht

/-- C2 (witness): with the deadline already reached no poll is issued
and the outcome is timeout; and the overshooting poll of the
counterexample run, issued at elapsed 10, is indeed below
expires_in + interval = 11. -/
theorem c2_witness :
    pollLoop 6 5 6 [[("error", JsonValue.str "authorization_pending")]]
      = (FlowResult.timeout, [])
    ∧ (10 : Nat) < 6 + 5 :=
  ⟨(c2_amended 6 5 6 [[("error", JsonValue.str "authorization_pending")]]).1 (by decide),
   (c2_amended 6 5 0
      [[("error", JsonValue.str "authorization_pending")],
       [("error", JsonValue.str "authorization_pending")]]).2 10 (by decide)⟩

/-- C3: a poll response containing an access_token field terminates the
loop on that exact iteration with the loop outcome carrying that value
unmodified, and the only poll request issued is the current one: no
further sleep or poll happens, whatever responses would have followed. -/
theorem c3_access_token_terminates (e i el : Nat) (v : JsonValue) (r : JsonObj)
    (rest : List JsonObj) (hel : el < e) (hat : jGet r "access_token" = some v) :
    pollLoop e i el (r :: rest) = (FlowResult.success v, [el + i]) := by
  simp [pollLoop, hel, hat]

/-- C3 (witness): a concrete run where the first response carries the
token and a pending response follows that is never consumed. -/
theorem c3_witness :
    pollLoop 900 5 0
      [[("access_token", JsonValue.str "gho_abc")],
       [("error", JsonValue.str "authorization_pending")]]
      = (FlowResult.success (JsonValue.str "gho_abc"), [5]) :=
  c3_access_token_terminates 900 5 0 _ _ _ (by decide) rfl

/-- C4: an exchange response containing a token field yields the
secondary token whose token is the response token value and whose
expiresAt is the response expires_at value, defaulting to 0 when
expires_at is absent; in particular the response with token abc and
expires_at 1700000000 yields exactly that secondary token. -/
theorem c4_exchange_success (resp : JsonObj) (t e : JsonValue) :
    (jGet resp "token" = some t → jGet resp "expires_at" = some e →
      classifyExchange resp = ExchangeResult.ok ⟨t, e⟩)
    ∧ (jGet resp "token" = some t → jGet resp "expires_at" = none →
      classifyExchange resp = ExchangeResult.ok ⟨t, JsonValue.num 0⟩)
    ∧ classifyExchange [("token", JsonValue.str "abc"), ("expires_at", JsonValue.num 1700000000)]
      = ExchangeResult.ok ⟨JsonValue.str "abc", JsonValue.num 1700000000⟩ := by
  refine ⟨fun h1 h2 => ?_, fun h1 h2 => ?_, rfl⟩ <;> simp [classifyExchange, h1, h2]

/-- C4 (witness): the two hypothesised branches at concrete responses,
with and without an expires_at field. -/
theorem c4_witness :
    classifyExchange [("token", JsonValue.str "abc"), ("expires_at", JsonValue.num 1700000000)]
      = ExchangeResult.ok ⟨JsonValue.str "abc", JsonValue.num 1700000000⟩
    ∧ classifyExchange [("token", JsonValue.str "t2")]
      = ExchangeResult.ok ⟨JsonValue.str "t2", JsonValue.num 0⟩ :=
  ⟨(c4_exchange_success _ _ (JsonValue.num 1700000000)).1 rfl rfl,
   (c4_exchange_success [("token", JsonValue.str "t2")] _ JsonValue.null).2.1 rfl rfl⟩

/-- C5: an exchange response lacking a token field is classified as the
exchange failure carrying the raw server response, and is never
classified as a secondary token, partially populated or otherwise. -/
theorem c5_exchange_failure (resp : JsonObj) (h : jGet resp "token" = none) :
    classifyExchange resp = ExchangeResult.exchangeError resp
    ∧ ∀ st : SecondaryToken, classifyExchange resp ≠ ExchangeResult.ok st := by
  have hc : classifyExchange resp = ExchangeResult.exchangeError resp := by
    simp [classifyExchange, h]
  exact ⟨hc, fun st hok => ExchangeResult.noConfusion (hc ▸ hok)⟩

/-- C5 (witness): the not_authorized error response of the claim. -/
theorem c5_witness :
    classifyExchange [("error", JsonValue.str "not_authorized")]
      = ExchangeResult.exchangeError [("error", JsonValue.str "not_authorized")] :=
  (c5_exchange_failure [("error", JsonValue.str "not_authorized")] rfl).1

/-- C6: a device-code response containing an error field makes the flow
fail fatally with AuthServerError carrying that response, with no poll
request ever issued (the recorded poll times are empty whatever poll
responses were available); a device-code response without an error field
is returned unchanged as the DeviceAuthorization record. -/
theorem c6_start_error_fatal (startResp : JsonObj) (polls : List JsonObj) :
    (jHas startResp "error" = true →
      mainFlow startResp polls = (MainOutcome.authServerError startResp, []))
    ∧ (jHas startResp "error" = false →
      start_device_flow startResp = Except.ok startResp) := by
  refine ⟨fun h => ?_, fun h => ?_⟩
  · simp [mainFlow, start_device_flow, h]
  · simp [start_device_flow, h]

/-- C6 (witness): a rejected device-code response aborts before any of
the available poll responses is consumed, and an accepted one is
returned as is. -/
theorem c6_witness :
    mainFlow [("error", JsonValue.str "unauthorized_client")]
      [[("access_token", JsonValue.str "gho")]]
      = (MainOutcome.authServerError [("error", JsonValue.str "unauthorized_client")], [])
    ∧ start_device_flow [("device_code", JsonValue.str "dc")]
      = Except.ok [("device_code", JsonValue.str "dc")] :=
  ⟨(c6_start_error_fatal [("error", JsonValue.str "unauthorized_client")]
      [[("access_token", JsonValue.str "gho")]]).1 rfl,
   (c6_start_error_fatal [("device_code", JsonValue.str "dc")] []).2 rfl⟩

/-- C7 (counterexample): the claim says a malformed or non-JSON response
body during polling is surfaced as a TransportError and never silently
causes another sleep-then-poll cycle.  But an empty response body (not
valid JSON) is decoded by make_request to the empty object, and the loop
then silently sleeps and polls again: starting from two empty bodies the
loop issues a second poll request at elapsed 10 without raising
anything. -/
theorem c7_counterexample :
    make_request_decode Body.empty = Except.ok []
    ∧ pollLoopBodies 900 5 0 [Body.empty, Body.empty] = (FlowResultB.exhausted, [5, 10]) :=
  ⟨rfl, rfl⟩

/-- C7 (amended): a connection failure or a malformed non-empty response
body during polling raises an uncaught exception that terminates the
whole script on that iteration, so it is never treated as
authorization_pending, though no distinct TransportError classification
exists; an empty response body, however, is decoded to the empty object
and silently causes another sleep-then-poll cycle. -/
theorem c7_amended (e i el : Nat) (rest : List Body) (hel : el < e) :
    pollLoopBodies e i el (Body.malformed :: rest)
      = (FlowResultB.crashed RequestFailure.jsonDecodeError, [el + i])
    ∧ pollLoopBodies e i el (Body.disconnected :: rest)
      = (FlowResultB.crashed RequestFailure.connectionError, [el + i])
    ∧ pollLoopBodies e i el (Body.empty :: rest)
      = ((pollLoopBodies e i (el + i) rest).1, (el + i) :: (pollLoopBodies e i (el + i) rest).2) := by
  refine ⟨?_, ?_, ?_⟩ <;>
    simp [pollLoopBodies, make_request_decode, hel, isAuthorizationPending, jGet, jTruthy]

/-- C7 (witness): the three transport outcomes at a concrete
configuration. -/
theorem c7_witness :
    pollLoopBodies 900 5 0 [Body.malformed]
      = (FlowResultB.crashed RequestFailure.jsonDecodeError, [5])
    ∧ pollLoopBodies 900 5 0 [Body.disconnected]
      = (FlowResultB.crashed RequestFailure.connectionError, [5])
    ∧ pollLoopBodies 900 5 0 [Body.empty]
      = ((pollLoopBodies 900 5 5 ([] : List Body)).1, 5 :: (pollLoopBodies 900 5 5 ([] : List Body)).2) :=
  ⟨(c7_amended 900 5 0 [] (by decide)).1,
   (c7_amended 900 5 0 [] (by decide)).2.1,
   (c7_amended 900 5 0 [] (by decide)).2.2⟩

/-- C8: serializing any secondary token to the persisted JSON document
with the token and expiresAt fields and parsing that document back
yields the identical token and expiresAt values. -/
theorem c8_round_trip (st : SecondaryToken) :
    parseSecondaryToken (serializeSecondaryToken st) = some st := rfl

/-- C9: the credential-exchange functions of the two scripts are
extensionally equivalent: for every primary token they issue the same
request (same host, path, method, headers and empty body), and for every
raw response body they produce the same parsed result. -/
theorem c9_scripts_equivalent (github_token : String) :
    CopilotScript.get_copilot_token github_token
      = EnterpriseScript.get_copilot_token github_token
    ∧ ∀ b : Body, CopilotScript.get_copilot_token_response b
      = EnterpriseScript.get_copilot_token_response b := by
  refine ⟨rfl, fun b => ?_⟩
  cases b <;> rfl

/-- C10: a poll response with neither an access_token field nor an error
field leaves the loop silently continuing with another sleep-then-poll
cycle, raising nothing: the loop behaves exactly as from the advanced
clock with the remaining responses. -/
theorem c10_silent_continue (e i el : Nat) (r : JsonObj) (rest : List JsonObj)
    (hel : el < e) (hat : jGet r "access_token" = none) (herr : jGet r "error" = none) :
    pollLoop e i el (r :: rest)
      = ((pollLoop e i (el + i) rest).1, (el + i) :: (pollLoop e i (el + i) rest).2) := by
  simp [pollLoop, hel, hat, herr, isAuthorizationPending, jTruthy]

/-- C10 (witness): the empty JSON object, as produced from an empty
response body, is followed by another poll that succeeds. -/
theorem c10_witness :
    pollLoop 900 5 0 [[], [("access_token", JsonValue.str "tok")]]
      = ((pollLoop 900 5 5 [[("access_token", JsonValue.str "tok")]]).1,
         5 :: (pollLoop 900 5 5 [[("access_token", JsonValue.str "tok")]]).2) :=
  c10_silent_continue 900 5 0 [] [[("access_token", JsonValue.str "tok")]]
    (by decide) rfl rfl

end CopilotTokenFetcher
